import Mathlib

/-!
Shallow embedding of the neuro-galaxy backend pipeline
(`backend/services/galaxy_brain.py` and `backend/api/routes.py`).

External capabilities (sentence-transformers encoding, sklearn KMeans
label computation, UMAP projection, Python's `random.sample`, and the
Groq chat-completion call) are modelled as an `Oracles` record of
deterministic functions; everything the repository's own code does with
their results is translated line by line.  Machine floats that only flow
through the pipeline opaquely (embedding components, 3D coordinates,
`min_dist`, `temperature`) are modelled as rationals: no claim computes
with their values.  Fallible Python code (library `ValueError`s,
`IndexError`s from list indexing, failed network calls) is modelled with
`Except` / `Option`.
-/

/-- A sentence embedding: one fixed-dimension dense vector per note. -/
abbrev Embedding : Type := List ℚ

/-- A 3D coordinate triple produced by the projector. -/
abbrev Coord3 : Type := ℚ × ℚ × ℚ

/-- Python exceptions that can escape the pipeline code. -/
inductive PErr where
  /-- failure inside `self.model.encode` -/
  | embeddingError : PErr
  /-- sklearn `ValueError`: parameter validation of KMeans rejects the input -/
  | kmeansValueError : PErr
  /-- numerical failure inside the KMeans computation proper -/
  | clusteringError : PErr
  /-- numerical failure inside UMAP `fit_transform` -/
  | projectionError : PErr
  /-- Python `IndexError` from an out-of-range list access -/
  | indexError : PErr
deriving Repr, DecidableEq

/-! ### Python string primitives

Structural (kernel-computable) models of the `str` methods the namer
uses: `.strip()`, `.split(chr(10))[0]` and no-argument `.split()`.
Whitespace is the ASCII fragment `Char.isWhitespace` recognises, which
covers every character these code paths meet. -/

/-- `s.strip()` on the character list. -/
def pyStripList (cs : List Char) : List Char :=
  ((cs.dropWhile Char.isWhitespace).reverse.dropWhile Char.isWhitespace).reverse

/-- Python `s.strip()`. -/
def pyStrip (s : String) : String := ⟨pyStripList s.data⟩

/-- Python `s.split(chr(10))[0]`: the text before the first newline.
`str.split` never returns an empty list, so the `[0]` access never
raises. -/
def firstLine (s : String) : String := ⟨s.data.takeWhile (fun c => c ≠ '\n')⟩

/-- Helper for no-argument `str.split`: accumulate the current word
(reversed) and cut at whitespace runs. -/
def wordsAux : List Char → List Char → List (List Char)
  | cur, [] => if cur.isEmpty then [] else [cur.reverse]
  | cur, c :: cs =>
    if c.isWhitespace then
      if cur.isEmpty then wordsAux [] cs else cur.reverse :: wordsAux [] cs
    else wordsAux (c :: cur) cs

/-- Python no-argument `s.split()`: split on whitespace runs, dropping
empty fields. -/
def pySplitWs (s : String) : List String :=
  (wordsAux [] s.data).map (fun w => ⟨w⟩)

/-- Python `sep.join(xs)`. -/
def joinSep (sep : String) : List String → String
  | [] => ""
  | [x] => x
  | x :: xs => x ++ sep ++ joinSep sep xs

/-! ### `sorted(set(...))` -/

/-- Insert into a sorted duplicate-free list, keeping it sorted and
duplicate-free. -/
def insertUniqueSorted (x : Nat) : List Nat → List Nat
  | [] => [x]
  | y :: ys =>
    if x = y then y :: ys
    else if x < y then x :: y :: ys
    else y :: insertUniqueSorted x ys

/-- Python `sorted(set(ls))`: the distinct elements in increasing
order. -/
def sortedSet (ls : List Nat) : List Nat := ls.foldr insertUniqueSorted []

/-! ### External capabilities -/

/-- The external capabilities the pipeline calls out to, as deterministic
functions.  `groqCreate` takes the model name, the prompt content, the
temperature and `max_tokens`, and returns `none` when the network call
raises. -/
structure Oracles where
  /-- one `SentenceTransformer(model_name).encode` output vector per text -/
  encodeOne : String → String → Except PErr Embedding
  /-- sklearn KMeans labels for (n_clusters, random_state, n_init, data),
  after the library's parameter validation has passed -/
  kmeansLabels : Nat → Nat → Nat → List Embedding → Except PErr (List Nat)
  /-- UMAP `fit_transform` for (n_components, n_neighbors, min_dist,
  random_state, data) -/
  umapFitTransform : Nat → Nat → ℚ → Nat → List Embedding → Except PErr (List Coord3)
  /-- Python `random.sample(population, k)` -/
  sample : List String → Nat → List String
  /-- `groq_client.chat.completions.create(...)` response content -/
  groqCreate : String → String → ℚ → Nat → Option String

/-- `self.model.encode(notes)`: one embedding per note, in order;
the first per-text failure aborts the batch. -/
def encodeAll (o : Oracles) (model_name : String) : List String → Except PErr (List Embedding)
  | [] => .ok []
  | t :: ts =>
    match o.encodeOne model_name t with
    | .error e => .error e
    | .ok v =>
      match encodeAll o model_name ts with
      | .error e => .error e
      | .ok vs => .ok (v :: vs)

/-- `KMeans(n_clusters=..., random_state=..., n_init=...).fit_predict(data)`
as used at `galaxy_brain.py:124-125`: sklearn validates
`n_samples >= n_clusters` (and `n_clusters >= 1`) and raises `ValueError`
otherwise; on valid input the labels are the library's deterministic
output for the given configuration and data. -/
def kmeans_fit_predict (o : Oracles) (n_clusters random_state n_init : Nat)
    (data : List Embedding) : Except PErr (List Nat) :=
  if n_clusters < 1 ∨ data.length < n_clusters then .error .kmeansValueError
  else o.kmeansLabels n_clusters random_state n_init data

/-! ### The renderer instance (`GalaxyRenderer`) -/

/-- The sklearn estimator object stored in `self.kmeans`: its constructor
arguments plus the data it has been fit on, if any. -/
structure KMeansHandle where
  n_clusters : Nat
  random_state : Nat
  n_init : Nat
  fitData : Option (List Embedding)
deriving Repr, DecidableEq

/-- The UMAP reducer object stored in `self.umap_reducer`: its
constructor arguments plus the data it has been fit on, if any. -/
structure UmapHandle where
  n_components : Nat
  n_neighbors : Nat
  min_dist : ℚ
  random_state : Nat
  fitData : Option (List Embedding)
deriving Repr, DecidableEq

/-- The mutable `GalaxyRenderer` instance: configuration plus the
per-call estimator handles `self.kmeans` / `self.umap_reducer`.
`groq_client` records whether the Groq client object is present
(credential found and client construction succeeded). -/
structure GalaxyRenderer where
  model_name : String
  n_clusters : Nat
  kmeans : Option KMeansHandle
  umap_reducer : Option UmapHandle
  groq_client : Bool
deriving Repr, DecidableEq

/-- `GalaxyRenderer.__init__`: the estimator handles start as `None`;
the Groq client exists iff `GROQ_API_KEY` is set and the `Groq(...)`
constructor does not raise (a raise is caught and leaves the client
`None`).  This is the once-per-instance availability decision. -/
def GalaxyRenderer.mkRenderer (model_name : String) (n_clusters : Nat)
    (groq_api_key_present : Bool) (groq_ctor_succeeds : Bool) : GalaxyRenderer :=
  { model_name := model_name
    n_clusters := n_clusters
    kmeans := none
    umap_reducer := none
    groq_client := groq_api_key_present && groq_ctor_succeeds }

/-! ### The cluster namer (`_name_clusters`) -/

/-- The generic placeholder name for a cluster. -/
def fallbackName (cluster_id : Nat) : String :=
  "Category " ++ toString cluster_id

/-- The label-extraction lines `galaxy_brain.py:94-97` applied to a
response content string: strip, take the first line, strip it, split on
whitespace, take the first two tokens; join with one space when there
are exactly two, otherwise index `[0]` of the split — which raises
`IndexError` (modelled as `none`) when the split is empty. -/
def parse_label_code (resp : String) : Option String :=
  let category_name := pyStrip (firstLine (pyStrip resp))
  let words := (pySplitWs category_name).take 2
  if words.length == 2 then some (joinSep " " words)
  else (pySplitWs category_name).head?

/-- The name stored for a cluster given a successful API response: the
parsed label, or the generic placeholder when parsing raises (the raise
is caught by the per-cluster handler at `galaxy_brain.py:98-103`). -/
def nameFromResponse (cluster_id : Nat) (resp : String) : String :=
  match parse_label_code resp with
  | some n => n
  | none => fallbackName cluster_id

/-- `[notes[i] for i in range(len(notes)) if cluster_labels[i] == cluster_id]`
in the case `len(cluster_labels) >= len(notes)` (otherwise the
comprehension raises `IndexError`, handled in `name_clusters`). -/
def clusterMembers (notes : List String) (cluster_labels : List Nat) (cluster_id : Nat) :
    List String :=
  (notes.zip cluster_labels).filterMap
    (fun p => if p.2 = cluster_id then some p.1 else none)

/-- The prompt built for one cluster (`galaxy_brain.py:71-77`): sample up
to 3 member notes (`random.sample` only when there are more than 3) and
ask for a 2-word topic title. -/
def clusterPrompt (sample : List String → Nat → List String)
    (notes : List String) (cluster_labels : List Nat) (cluster_id : Nat) : String :=
  let cluster_notes := clusterMembers notes cluster_labels cluster_id
  let sample_size := min 3 cluster_notes.length
  let sample_notes :=
    if cluster_notes.length > sample_size then sample cluster_notes sample_size
    else cluster_notes
  let notes_list := joinSep "\n" (sample_notes.map (fun note => "- " ++ note))
  "Generate a 2-word topic title for these notes:\n" ++ notes_list ++
    "\n\nReturn ONLY the 2-word title."

/-- The model name passed to the chat-completion call. -/
def groqModel : String := "llama-3.1-8b-instant"

/-- The chat-completion call issued for one cluster, with the fixed
model, temperature 0.7 and `max_tokens=20` from `galaxy_brain.py:81-91`. -/
def clusterCall (o : Oracles) (notes : List String) (cluster_labels : List Nat)
    (cluster_id : Nat) : Option String :=
  o.groqCreate groqModel (clusterPrompt o.sample notes cluster_labels cluster_id) (mkRat 7 10) 20

/-- The name computed for one cluster in the Groq-available branch:
a failed call (or a failed parse, see `nameFromResponse`) is caught and
yields the generic placeholder. -/
def nameOneCluster (o : Oracles) (notes : List String) (cluster_labels : List Nat)
    (cluster_id : Nat) : String :=
  match clusterCall o notes cluster_labels cluster_id with
  | none => fallbackName cluster_id
  | some resp => nameFromResponse cluster_id resp

/-- `GalaxyRenderer._name_clusters`.  Without a Groq client every
distinct cluster id maps to the generic placeholder.  With a client, the
member comprehension indexes `cluster_labels[i]` for every
`i < len(notes)` outside the try/except, so it raises `IndexError` —
independently of the cluster id — exactly when some cluster id exists
and `cluster_labels` is shorter than `notes`; otherwise each distinct id
is named by its own isolated call. -/
def name_clusters (o : Oracles) (groq_client : Bool) (cluster_labels : List Nat)
    (notes : List String) : Except PErr (List (Nat × String)) :=
  if !groq_client then
    .ok ((sortedSet cluster_labels).map (fun cluster_id => (cluster_id, fallbackName cluster_id)))
  else if cluster_labels ≠ [] ∧ cluster_labels.length < notes.length then
    .error .indexError
  else
    .ok ((sortedSet cluster_labels).map
      (fun cluster_id => (cluster_id, nameOneCluster o notes cluster_labels cluster_id)))

/-! ### Node assembly and `process_notes` -/

/-- One output record per note. -/
structure Node where
  id : Nat
  label : String
  x : ℚ
  y : ℚ
  z : ℚ
  category : Nat
  cluster_label : String
deriving Repr, DecidableEq

/-- The value returned by `process_notes`. -/
structure ProcessResult where
  nodes : List Node
  cluster_names : List (Nat × String)
deriving Repr, DecidableEq

/-- One iteration of the assembly loop (`galaxy_brain.py:146-156`):
`cluster_labels[i]` and `coords_3d[i]` raise `IndexError` when out of
range; the name lookup uses `dict.get` with the generic placeholder as
default and never raises. -/
def buildNode (cluster_labels : List Nat) (coords_3d : List Coord3)
    (cluster_names : List (Nat × String)) (i : Nat) (note : String) : Option Node :=
  match cluster_labels.get? i, coords_3d.get? i with
  | some cluster_id, some c =>
    some
      { id := i
        label := note
        x := c.1
        y := c.2.1
        z := c.2.2
        category := cluster_id
        cluster_label := (cluster_names.lookup cluster_id).getD (fallbackName cluster_id) }
  | _, _ => none

/-- The assembly loop from index `i` on: stops at the first raising
iteration. -/
def assembleAux (cluster_labels : List Nat) (coords_3d : List Coord3)
    (cluster_names : List (Nat × String)) : Nat → List String → Option (List Node)
  | _, [] => some []
  | i, note :: rest =>
    match buildNode cluster_labels coords_3d cluster_names i note with
    | none => none
    | some nd =>
      match assembleAux cluster_labels coords_3d cluster_names (i + 1) rest with
      | none => none
      | some tail => some (nd :: tail)

/-- `for i, note in enumerate(notes): nodes.append(...)`. -/
def assemble (notes : List String) (cluster_labels : List Nat) (coords_3d : List Coord3)
    (cluster_names : List (Nat × String)) : Except PErr (List Node) :=
  match assembleAux cluster_labels coords_3d cluster_names 0 notes with
  | some ns => .ok ns
  | none => .error .indexError

/-- `GalaxyRenderer.process_notes`, returning the value (or escaping
exception) together with the instance state after the call.  The
assignments to `self.kmeans` / `self.umap_reducer` happen before the
corresponding fit, so a raising fit leaves the freshly constructed,
unfitted estimator stored; a successful fit leaves it fitted on this
call's embeddings.  `cluster_names_clean` (`galaxy_brain.py:159`) is the
identity here because ids are already `Nat` and names already `String`. -/
def process_notes (o : Oracles) (st : GalaxyRenderer) (notes : List String) :
    Except PErr ProcessResult × GalaxyRenderer :=
  if notes.isEmpty then (.ok ⟨[], []⟩, st)
  else
    match encodeAll o st.model_name notes with
    | .error e => (.error e, st)
    | .ok embeddings =>
      let st1 : GalaxyRenderer :=
        { st with kmeans := some ⟨st.n_clusters, 42, 10, none⟩ }
      match kmeans_fit_predict o st.n_clusters 42 10 embeddings with
      | .error e => (.error e, st1)
      | .ok cluster_labels =>
        let st2 : GalaxyRenderer :=
          { st1 with kmeans := some ⟨st.n_clusters, 42, 10, some embeddings⟩ }
        let n_neighbors_val := if notes.length > 1 then min 10 (notes.length - 1) else 1
        let st3 : GalaxyRenderer :=
          { st2 with umap_reducer := some ⟨3, n_neighbors_val, mkRat 3 10, 42, none⟩ }
        match o.umapFitTransform 3 n_neighbors_val (mkRat 3 10) 42 embeddings with
        | .error e => (.error e, st3)
        | .ok coords_3d =>
          let st4 : GalaxyRenderer :=
            { st3 with umap_reducer := some ⟨3, n_neighbors_val, mkRat 3 10, 42, some embeddings⟩ }
          match name_clusters o st.groq_client cluster_labels notes with
          | .error e => (.error e, st4)
          | .ok cluster_names =>
            match assemble notes cluster_labels coords_3d cluster_names with
            | .error e => (.error e, st4)
            | .ok nodes => (.ok ⟨nodes, cluster_names⟩, st4)

/-! ### The routes layer (`routes.py`) -/

/-- The success payload of the `add_notes` endpoint. -/
structure AddResponse where
  message : String
  total_notes : Nat
  nodes : List Node
  cluster_names : List (Nat × String)
deriving Repr, DecidableEq

/-- `isOk` on the pipeline's `Except` results. -/
def isOkB {α : Type} : Except PErr α → Bool
  | .ok _ => true
  | .error _ => false

instance {ε α : Type} [DecidableEq ε] [DecidableEq α] : DecidableEq (Except ε α) := fun a b =>
  match a, b with
  | .ok x, .ok y =>
    if h : x = y then .isTrue (by rw [h]) else .isFalse (by intro hc; cases hc; exact h rfl)
  | .error x, .error y =>
    if h : x = y then .isTrue (by rw [h]) else .isFalse (by intro hc; cases hc; exact h rfl)
  | .ok _, .error _ => .isFalse (by intro hc; cases hc)
  | .error _, .ok _ => .isFalse (by intro hc; cases hc)

/-- The `add_notes` endpoint (`routes.py:87-113`): load the stored notes
(`[]` when the file is absent), append the request's notes after them,
write the combined list back to storage, and only then run
`process_notes` on the combined list.  A processing exception surfaces
as the endpoint's error response, with the storage write already done.
Returns (response, storage after the call, renderer after the call). -/
def add_notes (o : Oracles) (st : GalaxyRenderer) (storage : Option (List String))
    (newNotes : List String) :
    Except PErr AddResponse × Option (List String) × GalaxyRenderer :=
  let existing_notes := storage.getD []
  let combined := existing_notes ++ newNotes
  let storage1 : Option (List String) := some combined
  match process_notes o st combined with
  | (.ok res, st2) =>
    (.ok
      { message := "Added " ++ toString newNotes.length ++ " note(s)"
        total_notes := combined.length
        nodes := res.nodes
        cluster_names := res.cluster_names },
     storage1, st2)
  | (.error e, st2) => (.error e, storage1, st2)

/-! ### A concrete well-behaved external world, for witnesses -/

/-- A concrete oracle family: every external call succeeds, embeddings
are the single component `[0]`, all labels are `0`, all coordinates the
origin, and the chat completion answers `"Foo Bar"`. -/
def testOracle : Oracles where
  encodeOne := fun _ _ => .ok ([0] : List ℚ)
  kmeansLabels := fun _ _ _ data => .ok (data.map (fun _ => 0))
  umapFitTransform := fun _ _ _ _ data => .ok (data.map (fun _ => ((0 : ℚ), (0 : ℚ), (0 : ℚ))))
  sample := fun xs n => xs.take n
  groqCreate := fun _ _ _ _ => some "Foo Bar"

/-- The same external world with the chat-completion behaviour replaced:
used to express that one cluster's failed call leaves everything else as
it would have been. -/
def setGroq (o : Oracles) (g : String → String → ℚ → Nat → Option String) : Oracles :=
  { o with groqCreate := g }

/-- The label-derivation rule exactly as the specification words it for
claim C8: take the response's first line, split it on whitespace, take
the first 2 tokens; join with a single space when exactly 2 result, and
when fewer are available use whatever is available. -/
def claimedParse (resp : String) : String :=
  joinSep " " ((pySplitWs (firstLine resp)).take 2)

/-- The amended label-derivation rule: the response is stripped before
its first line is taken (and the line stripped again), then split on
whitespace and the first 2 tokens kept; with exactly 2 tokens they are
joined by one space, with exactly 1 that token is used alone, and with
no token at all the parse raises inside the per-cluster handler and the
name falls back to the generic placeholder. -/
def amendedParse (cluster_id : Nat) (resp : String) : String :=
  if (pySplitWs (pyStrip (firstLine (pyStrip resp)))).isEmpty then fallbackName cluster_id
  else joinSep " " ((pySplitWs (pyStrip (firstLine (pyStrip resp)))).take 2)

/-- The value returned by the concrete two-note run
`process_notes testOracle (GalaxyRenderer.mkRenderer "m" 1 false false) ["a", "b"]`,
used as input data by several witnesses below. -/
def twoNoteResult : ProcessResult where
  nodes := [⟨0, "a", 0, 0, 0, 0, "Category 0"⟩, ⟨1, "b", 0, 0, 0, 0, "Category 0"⟩]
  cluster_names := [(0, "Category 0")]

/-- The renderer state after that concrete two-note run. -/
def twoNoteState : GalaxyRenderer where
  model_name := "m"
  n_clusters := 1
  kmeans := some ⟨1, 42, 10, some [[0], [0]]⟩
  umap_reducer := some ⟨3, 1, mkRat 3 10, 42, some [[0], [0]]⟩
  groq_client := false

/-! ### Helper lemmas -/

theorem mem_insertUniqueSorted (x a : Nat) (l : List Nat) :
    x ∈ insertUniqueSorted a l ↔ x = a ∨ x ∈ l := by
  induction l with
  | nil => simp [insertUniqueSorted]
  | cons y ys ih =>
    by_cases h1 : a = y
    · subst h1
      simp only [insertUniqueSorted, if_pos rfl]
      constructor
      · intro h; exact Or.inr h
      · rintro (rfl | h)
        · exact List.mem_cons_self _ _
        · exact h
    · by_cases h2 : a < y
      · simp only [insertUniqueSorted, if_neg h1, if_pos h2]
        simp [List.mem_cons]
      · simp only [insertUniqueSorted, if_neg h1, if_neg h2]
        simp only [List.mem_cons, ih]
        tauto

theorem mem_sortedSet (x : Nat) (l : List Nat) : x ∈ sortedSet l ↔ x ∈ l := by
  induction l with
  | nil => simp [sortedSet]
  | cons y ys ih =>
    simp only [sortedSet, List.foldr_cons] at *
    rw [mem_insertUniqueSorted, ih, List.mem_cons]

theorem lookup_map_self (l : List Nat) (f : Nat → String) (c : Nat) (hc : c ∈ l) :
    (l.map (fun k => (k, f k))).lookup c = some (f c) := by
  induction l with
  | nil => cases hc
  | cons y ys ih =>
    rcases List.mem_cons.mp hc with rfl | hmem
    · simp [List.lookup]
    · by_cases h : c = y
      · subst h; simp [List.lookup]
      · simp only [List.map_cons, List.lookup]
        have hbe : (c == y) = false := beq_eq_false_iff_ne.mpr h
        simp only [hbe]
        exact ih hmem

theorem snd_of_mem_map_pair (l : List Nat) (f : Nat → String) (p : Nat × String)
    (hp : p ∈ l.map (fun k => (k, f k))) : p.2 = f p.1 := by
  rcases List.mem_map.mp hp with ⟨k, _, rfl⟩
  rfl

theorem encodeAll_length (o : Oracles) (mn : String) (ts : List String)
    (vs : List Embedding) (h : encodeAll o mn ts = .ok vs) : vs.length = ts.length := by
  induction ts generalizing vs with
  | nil =>
    simp only [encodeAll] at h
    cases h
    rfl
  | cons t ts ih =>
    simp only [encodeAll] at h
    cases hE : o.encodeOne mn t with
    | error e => rw [hE] at h; cases h
    | ok v =>
      rw [hE] at h
      cases hR : encodeAll o mn ts with
      | error e => rw [hR] at h; cases h
      | ok ws =>
        rw [hR] at h
        cases h
        simp [ih ws hR]

theorem assembleAux_spec (cluster_labels : List Nat) (coords_3d : List Coord3)
    (cluster_names : List (Nat × String)) (i : Nat) (notes : List String) (ns : List Node)
    (h : assembleAux cluster_labels coords_3d cluster_names i notes = some ns) :
    ns.map Node.id = List.range' i notes.length ∧
    ns.map Node.label = notes ∧
    ∀ nd ∈ ns, nd.category ∈ cluster_labels ∧
      nd.cluster_label = (cluster_names.lookup nd.category).getD (fallbackName nd.category) := by
  induction notes generalizing i ns with
  | nil =>
    simp only [assembleAux] at h
    cases h
    simp
  | cons note rest ih =>
    simp only [assembleAux] at h
    cases hB : buildNode cluster_labels coords_3d cluster_names i note with
    | none => rw [hB] at h; cases h
    | some nd =>
      rw [hB] at h
      cases hT : assembleAux cluster_labels coords_3d cluster_names (i + 1) rest with
      | none => rw [hT] at h; cases h
      | some tail =>
        rw [hT] at h
        cases h
        obtain ⟨hid, hlab, hrest⟩ := ih (i + 1) tail hT
        have hnd : nd.id = i ∧ nd.label = note ∧ nd.category ∈ cluster_labels ∧
            nd.cluster_label = (cluster_names.lookup nd.category).getD (fallbackName nd.category) := by
          simp only [buildNode] at hB
          cases hL : cluster_labels.get? i with
          | none => rw [hL] at hB; cases hB
          | some cid =>
            rw [hL] at hB
            cases hC : coords_3d.get? i with
            | none => rw [hC] at hB; cases hB
            | some c =>
              rw [hC] at hB
              cases hB
              exact ⟨rfl, rfl, List.get?_mem hL, rfl⟩
        refine ⟨?_, ?_, ?_⟩
        · simp [hnd.1, hid, List.range'_succ]
        · simp [hnd.2.1, hlab]
        · intro x hx
          rcases List.mem_cons.mp hx with rfl | hxm
          · exact hnd.2.2
          · exact hrest x hxm

theorem name_clusters_no_client (o : Oracles) (cluster_labels : List Nat)
    (notes : List String) :
    name_clusters o false cluster_labels notes =
      .ok ((sortedSet cluster_labels).map
        (fun cluster_id => (cluster_id, fallbackName cluster_id))) := rfl

theorem name_clusters_client_ok (o : Oracles) (cluster_labels : List Nat)
    (notes : List String) (hlen : notes.length ≤ cluster_labels.length) :
    name_clusters o true cluster_labels notes =
      .ok ((sortedSet cluster_labels).map
        (fun cluster_id => (cluster_id, nameOneCluster o notes cluster_labels cluster_id))) := by
  have hcond : ¬(cluster_labels ≠ [] ∧ cluster_labels.length < notes.length) := by
    rintro ⟨-, hlt⟩
    exact absurd hlen (not_le.mpr hlt)
  simp [name_clusters, hcond]

theorem name_clusters_ok_lookup (o : Oracles) (g : Bool) (cluster_labels : List Nat)
    (notes : List String) (m : List (Nat × String)) (c : Nat)
    (h : name_clusters o g cluster_labels notes = .ok m) (hc : c ∈ cluster_labels) :
    (m.lookup c).isSome = true := by
  have hcs : c ∈ sortedSet cluster_labels := (mem_sortedSet c cluster_labels).mpr hc
  cases g with
  | false =>
    simp only [name_clusters, Bool.not_false, if_pos] at h
    cases h
    rw [lookup_map_self _ _ _ hcs]
    rfl
  | true =>
    simp only [name_clusters, Bool.not_true, Bool.false_eq_true, if_false] at h
    by_cases hcond : cluster_labels ≠ [] ∧ cluster_labels.length < notes.length
    · rw [if_pos hcond] at h; cases h
    · rw [if_neg hcond] at h
      cases h
      rw [lookup_map_self _ _ _ hcs]
      rfl

theorem name_clusters_ok_generic_values (o : Oracles) (cluster_labels : List Nat)
    (notes : List String) (m : List (Nat × String))
    (h : name_clusters o false cluster_labels notes = .ok m) :
    (∀ p ∈ m, p.2 = fallbackName p.1) ∧
    (∀ c ∈ cluster_labels, m.lookup c = some (fallbackName c)) := by
  rw [name_clusters_no_client] at h
  cases h
  constructor
  · intro p hp
    exact snd_of_mem_map_pair _ _ _ hp
  · intro c hc
    exact lookup_map_self _ _ _ ((mem_sortedSet c cluster_labels).mpr hc)

/-- Inversion of a normal return of `process_notes`: either the input was
empty and nothing ran, or every pipeline stage returned successfully and
the result is the assembled nodes paired with the computed name map. -/
theorem process_notes_ok_inv (o : Oracles) (st : GalaxyRenderer) (notes : List String)
    (res : ProcessResult) (st2 : GalaxyRenderer)
    (h : process_notes o st notes = (.ok res, st2)) :
    (notes = [] ∧ res = ⟨[], []⟩ ∧ st2 = st) ∨
    ∃ embeddings cluster_labels coords_3d cluster_names nodes,
      encodeAll o st.model_name notes = .ok embeddings ∧
      kmeans_fit_predict o st.n_clusters 42 10 embeddings = .ok cluster_labels ∧
      o.umapFitTransform 3 (if notes.length > 1 then min 10 (notes.length - 1) else 1)
        (mkRat 3 10) 42 embeddings = .ok coords_3d ∧
      name_clusters o st.groq_client cluster_labels notes = .ok cluster_names ∧
      assemble notes cluster_labels coords_3d cluster_names = .ok nodes ∧
      res = ⟨nodes, cluster_names⟩ := by
  unfold process_notes at h
  cases hemp : notes.isEmpty with
  | true =>
    rw [hemp] at h
    simp only [if_true] at h
    left
    obtain ⟨h1, h2⟩ := Prod.mk.injEq .. ▸ h
    cases h1
    exact ⟨List.isEmpty_iff.mp hemp, rfl, h2.symm⟩
  | false =>
    rw [hemp] at h
    simp only [Bool.false_eq_true, if_false] at h
    right
    cases hE : encodeAll o st.model_name notes with
    | error e => rw [hE] at h; cases h
    | ok embeddings =>
      rw [hE] at h
      dsimp only at h
      cases hK : kmeans_fit_predict o st.n_clusters 42 10 embeddings with
      | error e => rw [hK] at h; cases h
      | ok cluster_labels =>
        rw [hK] at h
        dsimp only at h
        cases hU : o.umapFitTransform 3
            (if notes.length > 1 then min 10 (notes.length - 1) else 1)
            (mkRat 3 10) 42 embeddings with
        | error e => rw [hU] at h; cases h
        | ok coords_3d =>
          rw [hU] at h
          dsimp only at h
          cases hN : name_clusters o st.groq_client cluster_labels notes with
          | error e => rw [hN] at h; cases h
          | ok cluster_names =>
            rw [hN] at h
            dsimp only at h
            cases hA : assemble notes cluster_labels coords_3d cluster_names with
            | error e => rw [hA] at h; cases h
            | ok nodes =>
              rw [hA] at h
              dsimp only at h
              obtain ⟨h1, -⟩ := Prod.mk.injEq .. ▸ h
              cases h1
              exact ⟨embeddings, cluster_labels, coords_3d, cluster_names, nodes,
                rfl, hK, hU, hN, hA, rfl⟩

/-- The value computed by `process_notes` depends on the instance only
through its configuration fields (`model_name`, `n_clusters`,
`groq_client`); the stored estimator handles are never read. -/
theorem process_frame_fields (o : Oracles) (mn : String) (k : Nat) (g : Bool)
    (km km2 : Option KMeansHandle) (um um2 : Option UmapHandle) (notes : List String) :
    (process_notes o ⟨mn, k, km, um, g⟩ notes).1 =
      (process_notes o ⟨mn, k, km2, um2, g⟩ notes).1 := by
  unfold process_notes
  cases hemp : notes.isEmpty with
  | true => rfl
  | false =>
    dsimp only
    cases hE : encodeAll o mn notes with
    | error e => rfl
    | ok embeddings =>
      dsimp only
      cases hK : kmeans_fit_predict o k 42 10 embeddings with
      | error e => rfl
      | ok cluster_labels =>
        dsimp only
        cases hU : o.umapFitTransform 3
            (if notes.length > 1 then min 10 (notes.length - 1) else 1)
            (mkRat 3 10) 42 embeddings with
        | error e => rfl
        | ok coords_3d =>
          dsimp only
          cases hN : name_clusters o g cluster_labels notes with
          | error e => rfl
          | ok cluster_names =>
            dsimp only
            cases hA : assemble notes cluster_labels coords_3d cluster_names with
            | error e => rfl
            | ok nodes => rfl

theorem process_frame (o : Oracles) (st st2 : GalaxyRenderer) (notes : List String)
    (h1 : st.model_name = st2.model_name) (h2 : st.n_clusters = st2.n_clusters)
    (h3 : st.groq_client = st2.groq_client) :
    (process_notes o st notes).1 = (process_notes o st2 notes).1 := by
  obtain ⟨mn, k, km, um, g⟩ := st
  obtain ⟨mn2, k2, km2, um2, g2⟩ := st2
  dsimp only at h1 h2 h3
  subst h1
  subst h2
  subst h3
  exact process_frame_fields o mn k g km km2 um um2 notes

/-- `process_notes` only ever rewrites the estimator-handle fields: the
configuration fields of the instance survive every call unchanged. -/
theorem process_preserves_config (o : Oracles) (st : GalaxyRenderer) (notes : List String) :
    (process_notes o st notes).2.model_name = st.model_name ∧
    (process_notes o st notes).2.n_clusters = st.n_clusters ∧
    (process_notes o st notes).2.groq_client = st.groq_client := by
  unfold process_notes
  cases hemp : notes.isEmpty with
  | true => exact ⟨rfl, rfl, rfl⟩
  | false =>
    dsimp only
    cases hE : encodeAll o st.model_name notes with
    | error e => exact ⟨rfl, rfl, rfl⟩
    | ok embeddings =>
      dsimp only
      cases hK : kmeans_fit_predict o st.n_clusters 42 10 embeddings with
      | error e => exact ⟨rfl, rfl, rfl⟩
      | ok cluster_labels =>
        dsimp only
        cases hU : o.umapFitTransform 3
            (if notes.length > 1 then min 10 (notes.length - 1) else 1)
            (mkRat 3 10) 42 embeddings with
        | error e => exact ⟨rfl, rfl, rfl⟩
        | ok coords_3d =>
          dsimp only
          cases hN : name_clusters o st.groq_client cluster_labels notes with
          | error e => exact ⟨rfl, rfl, rfl⟩
          | ok cluster_names =>
            dsimp only
            cases hA : assemble notes cluster_labels coords_3d cluster_names with
            | error e => exact ⟨rfl, rfl, rfl⟩
            | ok nodes => exact ⟨rfl, rfl, rfl⟩


/-! ### Oracle-variation machinery for failure isolation -/


theorem encodeAll_setGroq (o : Oracles) (g : String → String → ℚ → Nat → Option String)
    (mn : String) (ts : List String) :
    encodeAll (setGroq o g) mn ts = encodeAll o mn ts := by
  induction ts with
  | nil => rfl
  | cons t ts ih =>
    simp only [encodeAll, ih]
    rfl

theorem kmeans_setGroq (o : Oracles) (g : String → String → ℚ → Nat → Option String)
    (k r n : Nat) (d : List Embedding) :
    kmeans_fit_predict (setGroq o g) k r n d = kmeans_fit_predict o k r n d := rfl

theorem umap_setGroq (o : Oracles) (g : String → String → ℚ → Nat → Option String) :
    (setGroq o g).umapFitTransform = o.umapFitTransform := rfl

theorem name_clusters_isOk_oracle (o o2 : Oracles) (g : Bool) (cluster_labels : List Nat)
    (notes : List String) :
    isOkB (name_clusters o g cluster_labels notes) =
      isOkB (name_clusters o2 g cluster_labels notes) := by
  unfold name_clusters
  cases g with
  | false => rfl
  | true =>
    by_cases hcond : cluster_labels ≠ [] ∧ cluster_labels.length < notes.length
    · rw [if_pos hcond, if_pos hcond]
    · rw [if_neg hcond, if_neg hcond]
      rfl

theorem assembleAux_isSome_names (cluster_labels : List Nat) (coords_3d : List Coord3)
    (names names2 : List (Nat × String)) (i : Nat) (notes : List String) :
    (assembleAux cluster_labels coords_3d names i notes).isSome =
      (assembleAux cluster_labels coords_3d names2 i notes).isSome := by
  induction notes generalizing i with
  | nil => rfl
  | cons note rest ih =>
    simp only [assembleAux, buildNode]
    cases hL : cluster_labels.get? i with
    | none => rfl
    | some cid =>
      cases hC : coords_3d.get? i with
      | none => rfl
      | some c =>
        dsimp only
        cases h1 : assembleAux cluster_labels coords_3d names (i + 1) rest with
        | none =>
          have h3 := ih (i + 1)
          rw [h1] at h3
          have h2 : assembleAux cluster_labels coords_3d names2 (i + 1) rest = none :=
            Option.not_isSome_iff_eq_none.mp (by rw [← h3]; simp)
          rw [h2]
        | some tail =>
          have h2 : (assembleAux cluster_labels coords_3d names2 (i + 1) rest).isSome = true := by
            rw [← ih (i + 1), h1]
            rfl
          obtain ⟨tail2, h3⟩ := Option.isSome_iff_exists.mp h2
          rw [h3]
          rfl

theorem assemble_isOk_names (notes : List String) (cluster_labels : List Nat)
    (coords_3d : List Coord3) (names names2 : List (Nat × String)) :
    isOkB (assemble notes cluster_labels coords_3d names) =
      isOkB (assemble notes cluster_labels coords_3d names2) := by
  unfold assemble
  have h := assembleAux_isSome_names cluster_labels coords_3d names names2 0 notes
  cases h1 : assembleAux cluster_labels coords_3d names 0 notes with
  | none =>
    rw [h1] at h
    have h2 : assembleAux cluster_labels coords_3d names2 0 notes = none :=
      Option.not_isSome_iff_eq_none.mp (by rw [← h]; simp)
    rw [h2]
  | some ns =>
    rw [h1] at h
    have h2 : (assembleAux cluster_labels coords_3d names2 0 notes).isSome = true := by
      rw [← h]
      rfl
    obtain ⟨ns2, h3⟩ := Option.isSome_iff_exists.mp h2
    rw [h3]
    rfl

/-- Whether `process_notes` returns normally does not depend on the
chat-completion behaviour at all: any combination of failed naming calls
yields the same success/failure outcome as any other. -/
theorem process_isOk_groq_irrelevant (o : Oracles)
    (g g2 : String → String → ℚ → Nat → Option String)
    (st : GalaxyRenderer) (notes : List String) :
    isOkB (process_notes (setGroq o g) st notes).1 =
      isOkB (process_notes (setGroq o g2) st notes).1 := by
  unfold process_notes
  cases hemp : notes.isEmpty with
  | true => rfl
  | false =>
    dsimp only
    rw [encodeAll_setGroq, encodeAll_setGroq]
    cases hE : encodeAll o st.model_name notes with
    | error e => rfl
    | ok embeddings =>
      dsimp only
      rw [kmeans_setGroq, kmeans_setGroq]
      cases hK : kmeans_fit_predict o st.n_clusters 42 10 embeddings with
      | error e => rfl
      | ok cluster_labels =>
        dsimp only
        rw [umap_setGroq o g, umap_setGroq o g2]
        cases hU : o.umapFitTransform 3
            (if notes.length > 1 then min 10 (notes.length - 1) else 1)
            (mkRat 3 10) 42 embeddings with
        | error e => rfl
        | ok coords_3d =>
          dsimp only
          have hNok := name_clusters_isOk_oracle (setGroq o g) (setGroq o g2)
            st.groq_client cluster_labels notes
          cases hN1 : name_clusters (setGroq o g) st.groq_client cluster_labels notes with
          | error e =>
            rw [hN1] at hNok
            cases hN2 : name_clusters (setGroq o g2) st.groq_client cluster_labels notes with
            | error e2 => rfl
            | ok m2 => rw [hN2] at hNok; cases hNok
          | ok m1 =>
            rw [hN1] at hNok
            cases hN2 : name_clusters (setGroq o g2) st.groq_client cluster_labels notes with
            | error e2 => rw [hN2] at hNok; cases hNok
            | ok m2 =>
              dsimp only
              have hAok := assemble_isOk_names notes cluster_labels coords_3d m1 m2
              cases hA1 : assemble notes cluster_labels coords_3d m1 with
              | error e =>
                rw [hA1] at hAok
                cases hA2 : assemble notes cluster_labels coords_3d m2 with
                | error e2 => rfl
                | ok ns2 => rw [hA2] at hAok; cases hAok
              | ok ns1 =>
                rw [hA1] at hAok
                cases hA2 : assemble notes cluster_labels coords_3d m2 with
                | error e2 => rw [hA2] at hAok; cases hAok
                | ok ns2 => rfl

theorem nameOneCluster_congr (oA oB : Oracles) (notes : List String)
    (cluster_labels : List Nat) (cluster_id : Nat)
    (h : clusterCall oA notes cluster_labels cluster_id =
      clusterCall oB notes cluster_labels cluster_id) :
    nameOneCluster oA notes cluster_labels cluster_id =
      nameOneCluster oB notes cluster_labels cluster_id := by
  unfold nameOneCluster
  rw [h]

/-! ### The claims -/

/-- C1, counterexample: with the default configuration `k = 5` and the
two-note list `["a", "b"]` (so `1 <= N < k`), `process_notes` does not
return normally: the KMeans fit raises sklearn's `ValueError` because
`n_samples < n_clusters`, contradicting the claim that small-N input is
never an error of the clusterer. -/
theorem c1_counterexample :
    1 ≤ (["a", "b"] : List String).length ∧ (["a", "b"] : List String).length < 5 ∧
    (process_notes testOracle (GalaxyRenderer.mkRenderer "all-MiniLM-L6-v2" 5 false false)
      ["a", "b"]).1 = .error PErr.kmeansValueError := by
  decide

/-- C1, amended: for every note list with `1 <= N < k` the pipeline never
returns normally; the code passes `n_clusters` to KMeans unreduced, so
whenever embedding succeeds the call fails with the KMeans `ValueError`
(`n_samples >= n_clusters` violated), and otherwise with the embedding
failure. -/
theorem c1_amended_small_n_always_raises (o : Oracles) (st : GalaxyRenderer)
    (notes : List String) (h1 : 1 ≤ notes.length) (h2 : notes.length < st.n_clusters) :
    (∀ r : ProcessResult, (process_notes o st notes).1 ≠ .ok r) ∧
    (∀ embeddings : List Embedding, encodeAll o st.model_name notes = .ok embeddings →
      (process_notes o st notes).1 = .error PErr.kmeansValueError) := by
  have hempty : notes.isEmpty = false := by
    cases notes with
    | nil => simp at h1
    | cons a l => rfl
  unfold process_notes
  rw [hempty]
  dsimp only
  cases hE : encodeAll o st.model_name notes with
  | error e =>
    constructor
    · intro r hr
      exact Except.noConfusion hr
    · intro emb hemb
      exact Except.noConfusion hemb
  | ok embeddings =>
    dsimp only
    have hlen := encodeAll_length o st.model_name notes embeddings hE
    have hkm : kmeans_fit_predict o st.n_clusters 42 10 embeddings =
        .error PErr.kmeansValueError := by
      unfold kmeans_fit_predict
      rw [if_pos (Or.inr (by rw [hlen]; exact h2))]
    rw [hkm]
    constructor
    · intro r hr
      exact Except.noConfusion hr
    · intro emb hemb
      rfl

/-- C1, witness for the amended theorem: the concrete small-N input
`["a", "b"]` with `k = 5` in a well-behaved external world. -/
theorem c1_witness :
    (∀ r : ProcessResult,
      (process_notes testOracle (GalaxyRenderer.mkRenderer "all-MiniLM-L6-v2" 5 false false)
        ["a", "b"]).1 ≠ .ok r) ∧
    (∀ embeddings : List Embedding,
      encodeAll testOracle
        (GalaxyRenderer.mkRenderer "all-MiniLM-L6-v2" 5 false false).model_name ["a", "b"] =
          .ok embeddings →
      (process_notes testOracle (GalaxyRenderer.mkRenderer "all-MiniLM-L6-v2" 5 false false)
        ["a", "b"]).1 = .error PErr.kmeansValueError) :=
  c1_amended_small_n_always_raises testOracle
    (GalaxyRenderer.mkRenderer "all-MiniLM-L6-v2" 5 false false) ["a", "b"]
    (by decide) (by decide)

/-- C2: on the empty note list `process_notes` returns exactly
`(nodes = [], cluster_names = empty)` immediately; the equation holds for
every oracle record and every instance state and the state is returned
untouched, so no pipeline component influences (or is needed for) the
result. -/
theorem c2_empty_input_short_circuit (o : Oracles) (st : GalaxyRenderer) :
    process_notes o st [] = (.ok ⟨[], []⟩, st) := rfl

/-- C3: whenever `process_notes` returns normally on a non-empty list,
the returned nodes are exactly one per input note, in input order: the
id projection is `[0, ..., N-1]` and the label projection is the input
list itself. -/
theorem c3_nodes_in_order (o : Oracles) (st : GalaxyRenderer) (notes : List String)
    (res : ProcessResult) (st2 : GalaxyRenderer) (hne : notes ≠ [])
    (h : process_notes o st notes = (.ok res, st2)) :
    res.nodes.map Node.id = List.range notes.length ∧
    res.nodes.map Node.label = notes := by
  rcases process_notes_ok_inv o st notes res st2 h with
    ⟨h1, -, -⟩ | ⟨emb, cluster_labels, coords_3d, cluster_names, nodes, -, -, -, -, hA, hres⟩
  · exact absurd h1 hne
  · subst hres
    unfold assemble at hA
    cases hAA : assembleAux cluster_labels coords_3d cluster_names 0 notes with
    | none => rw [hAA] at hA; cases hA
    | some ns =>
      rw [hAA] at hA
      dsimp only at hA
      cases hA
      obtain ⟨hid, hlab, -⟩ :=
        assembleAux_spec cluster_labels coords_3d cluster_names 0 notes nodes hAA
      constructor
      · rw [List.range_eq_range']
        exact hid
      · exact hlab


/-- C3, witness: a concrete normal run on two notes with `k = 1`. -/
theorem c3_witness :
    (["a", "b"] : List String) ≠ [] ∧
    (twoNoteResult.nodes.map Node.id = List.range (["a", "b"] : List String).length ∧
      twoNoteResult.nodes.map Node.label = ["a", "b"]) :=
  ⟨by decide,
   c3_nodes_in_order testOracle (GalaxyRenderer.mkRenderer "m" 1 false false) ["a", "b"]
     twoNoteResult twoNoteState (by decide) (by decide)⟩

/-- C4: whenever `process_notes` returns normally, the `category` of
every returned node is a key of the returned cluster-name mapping. -/
theorem c4_categories_have_names (o : Oracles) (st : GalaxyRenderer) (notes : List String)
    (res : ProcessResult) (st2 : GalaxyRenderer)
    (h : process_notes o st notes = (.ok res, st2)) :
    ∀ nd ∈ res.nodes, (res.cluster_names.lookup nd.category).isSome = true := by
  rcases process_notes_ok_inv o st notes res st2 h with
    ⟨-, hres, -⟩ | ⟨emb, cluster_labels, coords_3d, cluster_names, nodes, -, -, -, hN, hA, hres⟩
  · subst hres
    intro nd hnd
    cases hnd
  · subst hres
    intro nd hnd
    unfold assemble at hA
    cases hAA : assembleAux cluster_labels coords_3d cluster_names 0 notes with
    | none => rw [hAA] at hA; cases hA
    | some ns =>
      rw [hAA] at hA
      dsimp only at hA
      cases hA
      obtain ⟨-, -, hprop⟩ :=
        assembleAux_spec cluster_labels coords_3d cluster_names 0 notes nodes hAA
      exact name_clusters_ok_lookup o st.groq_client cluster_labels notes cluster_names
        nd.category hN (hprop nd hnd).1

/-- C4, witness: the concrete normal run on two notes with `k = 1`,
instantiated at its first returned node. -/
theorem c4_witness :
    (twoNoteResult.cluster_names.lookup
      (⟨0, "a", 0, 0, 0, 0, "Category 0"⟩ : Node).category).isSome = true :=
  c4_categories_have_names testOracle (GalaxyRenderer.mkRenderer "m" 1 false false) ["a", "b"]
    twoNoteResult twoNoteState (by decide) ⟨0, "a", 0, 0, 0, 0, "Category 0"⟩ (by decide)

/-- C5: two successive calls on the same renderer instance with the same
note list (the configuration, including both fixed random seeds written
into the code, being all the calls depend on) return identical cluster
assignments and identical 3D coordinates whenever both return
normally. -/
theorem c5_repeat_call_determinism (o : Oracles) (st : GalaxyRenderer) (notes : List String)
    (r1 r2 : Except PErr ProcessResult) (st1 st2 : GalaxyRenderer) (res1 res2 : ProcessResult)
    (hc1 : process_notes o st notes = (r1, st1))
    (hc2 : process_notes o st1 notes = (r2, st2))
    (h1 : r1 = .ok res1) (h2 : r2 = .ok res2) :
    res1.nodes.map (fun nd => (nd.category, nd.x, nd.y, nd.z)) =
      res2.nodes.map (fun nd => (nd.category, nd.x, nd.y, nd.z)) := by
  have hcfg := process_preserves_config o st notes
  rw [hc1] at hcfg
  have hfr := process_frame o st1 st notes hcfg.1 hcfg.2.1 hcfg.2.2
  rw [hc1, hc2] at hfr
  dsimp only at hfr
  rw [h1, h2] at hfr
  cases hfr
  rfl

/-- C5, witness: the concrete repeated run on two notes with `k = 1`. -/
theorem c5_witness :
    twoNoteResult.nodes.map (fun nd => (nd.category, nd.x, nd.y, nd.z)) =
      twoNoteResult.nodes.map (fun nd => (nd.category, nd.x, nd.y, nd.z)) :=
  c5_repeat_call_determinism testOracle (GalaxyRenderer.mkRenderer "m" 1 false false) ["a", "b"]
    (.ok twoNoteResult) (.ok twoNoteResult) twoNoteState twoNoteState
    twoNoteResult twoNoteResult (by decide) (by decide) rfl rfl

/-- C6: when the renderer is constructed without a credential, every
cluster name returned by any normal call is exactly the generic
placeholder, both in the name mapping and on every node; the decision is
the once-per-instance `groq_client` field fixed at construction. -/
theorem c6_no_credential_generic_names (o : Oracles) (mn : String) (k : Nat) (ctorOk : Bool)
    (notes : List String) (res : ProcessResult) (st2 : GalaxyRenderer)
    (h : process_notes o (GalaxyRenderer.mkRenderer mn k false ctorOk) notes = (.ok res, st2)) :
    (∀ p ∈ res.cluster_names, p.2 = fallbackName p.1) ∧
    (∀ nd ∈ res.nodes, nd.cluster_label = fallbackName nd.category) := by
  rcases process_notes_ok_inv o (GalaxyRenderer.mkRenderer mn k false ctorOk) notes res st2 h with
    ⟨-, hres, -⟩ | ⟨emb, cluster_labels, coords_3d, cluster_names, nodes, -, -, -, hN, hA, hres⟩
  · subst hres
    constructor
    · intro p hp
      cases hp
    · intro nd hnd
      cases hnd
  · subst hres
    have hg : (GalaxyRenderer.mkRenderer mn k false ctorOk).groq_client = false := rfl
    rw [hg] at hN
    obtain ⟨hpairs, hlookups⟩ :=
      name_clusters_ok_generic_values o cluster_labels notes cluster_names hN
    constructor
    · exact hpairs
    · intro nd hnd
      unfold assemble at hA
      cases hAA : assembleAux cluster_labels coords_3d cluster_names 0 notes with
      | none => rw [hAA] at hA; cases hA
      | some ns =>
        rw [hAA] at hA
        dsimp only at hA
        cases hA
        obtain ⟨-, -, hprop⟩ :=
          assembleAux_spec cluster_labels coords_3d cluster_names 0 notes nodes hAA
        obtain ⟨hcat, hlabel⟩ := hprop nd hnd
        rw [hlabel, hlookups nd.category hcat]
        rfl

/-- C6, witness: a concrete normal run of an instance built without a
credential (here the constructor-success flag is irrelevant). -/
theorem c6_witness :
    (∀ p ∈ twoNoteResult.cluster_names, p.2 = fallbackName p.1) ∧
    (∀ nd ∈ twoNoteResult.nodes, nd.cluster_label = fallbackName nd.category) :=
  c6_no_credential_generic_names testOracle "m" 1 true ["a", "b"]
    twoNoteResult twoNoteState (by decide)

/-- C7: Namer failure isolation.  First conjunct: whether `process_notes`
returns normally is identical under any two chat-completion behaviours,
so a Namer failure is never pipeline-fatal.  Second conjunct: with the
client available, for any assignment list and any cluster `c` whose call
fails, naming still returns normally, `c` maps to the generic
placeholder, and every other cluster's name is exactly what it is under
any oracle that agrees on that cluster's own call. -/
theorem c7_namer_failure_isolation (o : Oracles)
    (g g2 : String → String → ℚ → Nat → Option String)
    (st : GalaxyRenderer) (pnotes notes : List String) (cluster_labels : List Nat) (c : Nat)
    (hlen : cluster_labels.length = notes.length)
    (hc : c ∈ cluster_labels)
    (hfail : clusterCall (setGroq o g) notes cluster_labels c = none)
    (hagree : ∀ d ∈ cluster_labels, d ≠ c →
      clusterCall (setGroq o g) notes cluster_labels d =
        clusterCall (setGroq o g2) notes cluster_labels d) :
    (isOkB (process_notes (setGroq o g) st pnotes).1 =
      isOkB (process_notes (setGroq o g2) st pnotes).1) ∧
    ∃ m m2 : List (Nat × String),
      name_clusters (setGroq o g) true cluster_labels notes = .ok m ∧
      name_clusters (setGroq o g2) true cluster_labels notes = .ok m2 ∧
      m.lookup c = some (fallbackName c) ∧
      ∀ d ∈ cluster_labels, d ≠ c → m.lookup d = m2.lookup d := by
  refine ⟨process_isOk_groq_irrelevant o g g2 st pnotes, ?_⟩
  have hle : notes.length ≤ cluster_labels.length := le_of_eq hlen.symm
  refine ⟨_, _, name_clusters_client_ok (setGroq o g) cluster_labels notes hle,
    name_clusters_client_ok (setGroq o g2) cluster_labels notes hle, ?_, ?_⟩
  · rw [lookup_map_self _ _ _ ((mem_sortedSet c cluster_labels).mpr hc)]
    unfold nameOneCluster
    rw [hfail]
  · intro d hd hdc
    rw [lookup_map_self _ _ _ ((mem_sortedSet d cluster_labels).mpr hd),
      lookup_map_self _ _ _ ((mem_sortedSet d cluster_labels).mpr hd)]
    rw [nameOneCluster_congr (setGroq o g) (setGroq o g2) notes cluster_labels d
      (hagree d hd hdc)]

/-- C7, witness: three notes in clusters `{0, 1}`; the chat call for
cluster 0 fails under `g` while `g` and `g2` agree on cluster 1's call. -/
theorem c7_witness :
    (isOkB (process_notes (setGroq testOracle (fun _ p _ _ =>
      if p = "Generate a 2-word topic title for these notes:\n- a\n- b\n\nReturn ONLY the 2-word title." then none else some "Alpha Beta"))
        (GalaxyRenderer.mkRenderer "m" 1 true true) ["x"]).1 =
      isOkB (process_notes (setGroq testOracle (fun _ _ _ _ => some "Alpha Beta"))
        (GalaxyRenderer.mkRenderer "m" 1 true true) ["x"]).1) ∧
    ∃ m m2 : List (Nat × String),
      name_clusters (setGroq testOracle (fun _ p _ _ =>
        if p = "Generate a 2-word topic title for these notes:\n- a\n- b\n\nReturn ONLY the 2-word title." then none else some "Alpha Beta"))
          true [0, 0, 1] ["a", "b", "c"] = .ok m ∧
      name_clusters (setGroq testOracle (fun _ _ _ _ => some "Alpha Beta"))
        true [0, 0, 1] ["a", "b", "c"] = .ok m2 ∧
      m.lookup 0 = some (fallbackName 0) ∧
      ∀ d ∈ [0, 0, 1], d ≠ 0 → m.lookup d = m2.lookup d :=
  c7_namer_failure_isolation testOracle
    (fun _ p _ _ =>
      if p = "Generate a 2-word topic title for these notes:\n- a\n- b\n\nReturn ONLY the 2-word title." then none else some "Alpha Beta")
    (fun _ _ _ _ => some "Alpha Beta")
    (GalaxyRenderer.mkRenderer "m" 1 true true) ["x"] ["a", "b", "c"] [0, 0, 1] 0
    (by decide) (by decide) (by decide) (by decide)

/-- C8, counterexample: on the whitespace-only response `" "` the code
does not use "whatever is available" (the empty token list, giving the
empty name) — the `[0]` index raises and the per-cluster handler falls
back to the generic placeholder, so the stored name differs from the
claimed derivation. -/
theorem c8_counterexample :
    nameFromResponse 0 " " = "Category 0" ∧ claimedParse " " = "" ∧
    nameFromResponse 0 " " ≠ claimedParse " " := by
  decide

/-- C8 (amended): the name derived from a successful response equals the
claimed first-line/2-token rule applied after stripping, with the one
extra case the counterexample forces: when the stripped first line has
no tokens at all, the parse raises and the name falls back to the
generic placeholder `"Category {id}"`; with exactly 1 token that token
is used as-is, and with 2 or more the first two are joined by one
space. -/
theorem c8_amended_label_rule (cluster_id : Nat) (resp : String) :
    nameFromResponse cluster_id resp = amendedParse cluster_id resp := by
  simp only [nameFromResponse, parse_label_code, amendedParse]
  cases h : pySplitWs (pyStrip (firstLine (pyStrip resp))) with
  | nil => rfl
  | cons a tl =>
    cases tl with
    | nil => rfl
    | cons b tl2 => rfl

/-- C9, counterexample: statelessness fails.  A successful one-note call
on a freshly constructed renderer leaves the fitted KMeans estimator and
the fitted UMAP reducer stored in the instance fields, which were `None`
before the call. -/
theorem c9_counterexample :
    (GalaxyRenderer.mkRenderer "m" 1 false false).kmeans = none ∧
    (GalaxyRenderer.mkRenderer "m" 1 false false).umap_reducer = none ∧
    (process_notes testOracle (GalaxyRenderer.mkRenderer "m" 1 false false) ["a"]).2.kmeans =
      some ⟨1, 42, 10, some [[0]]⟩ ∧
    (process_notes testOracle (GalaxyRenderer.mkRenderer "m" 1 false false) ["a"]).2.umap_reducer =
      some ⟨3, 1, mkRat 3 10, 42, some [[0]]⟩ := by
  decide

/-- C9 (amended): `process_notes` does store per-call fitted estimator
handles in the instance, but these fields are write-only: the value a
call returns depends on the instance only through its configuration
(model name, cluster count, client availability), and the configuration
fields themselves survive every call unchanged — so the stored handles
never influence any result. -/
theorem c9_amended_handles_write_only (o : Oracles) (st st2 : GalaxyRenderer)
    (notes : List String)
    (h1 : st.model_name = st2.model_name) (h2 : st.n_clusters = st2.n_clusters)
    (h3 : st.groq_client = st2.groq_client) :
    (process_notes o st notes).1 = (process_notes o st2 notes).1 ∧
    (process_notes o st notes).2.model_name = st.model_name ∧
    (process_notes o st notes).2.n_clusters = st.n_clusters ∧
    (process_notes o st notes).2.groq_client = st.groq_client :=
  ⟨process_frame o st st2 notes h1 h2 h3, process_preserves_config o st notes⟩

/-- C9, witness for the amended theorem: two instances with the same
configuration but different stored handles. -/
theorem c9_witness :
    (process_notes testOracle (GalaxyRenderer.mkRenderer "m" 1 false false) ["a"]).1 =
      (process_notes testOracle
        ⟨"m", 1, some ⟨7, 7, 7, none⟩, some ⟨7, 7, mkRat 1 2, 7, none⟩, false⟩ ["a"]).1 ∧
    (process_notes testOracle (GalaxyRenderer.mkRenderer "m" 1 false false) ["a"]).2.model_name =
      (GalaxyRenderer.mkRenderer "m" 1 false false).model_name ∧
    (process_notes testOracle (GalaxyRenderer.mkRenderer "m" 1 false false) ["a"]).2.n_clusters =
      (GalaxyRenderer.mkRenderer "m" 1 false false).n_clusters ∧
    (process_notes testOracle (GalaxyRenderer.mkRenderer "m" 1 false false) ["a"]).2.groq_client =
      (GalaxyRenderer.mkRenderer "m" 1 false false).groq_client :=
  c9_amended_handles_write_only testOracle (GalaxyRenderer.mkRenderer "m" 1 false false)
    ⟨"m", 1, some ⟨7, 7, 7, none⟩, some ⟨7, 7, mkRat 1 2, 7, none⟩, false⟩ ["a"]
    (by decide) (by decide) (by decide)

/-- C10: the `add_notes` endpoint appends the request's notes after the
stored ones and writes the combined list to storage before processing;
the resulting storage always holds the combined list — in particular it
already holds the appended notes when processing raises — and the
endpoint's success is exactly the success of processing the combined
list (adding notes is not atomic with processing). -/
theorem c10_storage_written_before_processing (o : Oracles) (st : GalaxyRenderer)
    (storage : Option (List String)) (newNotes : List String) :
    (add_notes o st storage newNotes).2.1 = some (storage.getD [] ++ newNotes) ∧
    isOkB (add_notes o st storage newNotes).1 =
      isOkB (process_notes o st (storage.getD [] ++ newNotes)).1 := by
  simp only [add_notes]
  cases hp : process_notes o st (storage.getD [] ++ newNotes) with
  | mk r stp =>
    cases r with
    | ok res => exact ⟨rfl, rfl⟩
    | error e => exact ⟨rfl, rfl⟩
